import Mathlib

/-!
Formal model of the Streaming Device State Reconciler of the
medical-device-failure-prediction dashboard.

The definitions below are shallow embeddings of the TypeScript sources:
  * `src/services/types.ts`        — the record data model;
  * `src/hooks/useSSEStream.ts`    — the SSE hook: `updateDeviceData` (the
    record merger), the `onopen` / `onmessage` / `onerror` handlers and the
    `reconnect` action;
  * `src/services/sseService.ts`   — `SSEService.handleReconnection`;
  * `src/utils/riskHelpers.ts`     — `getRiskStats`.

Modelling conventions:
  * JS numbers that only flow through the state unchanged are modelled as `ℚ`
    (confidence scores, sensor readings).
  * The record timestamp is an ISO string in the source and is only ever used
    through `new Date(t).getTime()` (millisecond-resolution comparison); we
    represent it directly by that millisecond value, a field `timestampMs : ℤ`.
  * `Array.prototype.sort` with a comparator is a stable sort (ES2019); the
    comparator `(a, b) => bT - aT` stably sorts by timestamp descending, which
    we model by `List.insertionSort` of the total preorder `tsLe` (Mathlib's
    insertion sort is stable).
  * Fallible JSON parsing of a stream payload is modelled by an
    `Option PredictionRecord` argument: `none` is a payload that throws in
    `JSON.parse`.
-/

inductive RiskLevel : Type
  | Low
  | Medium
  | High
deriving DecidableEq

/-- `TelemetryData` of `src/services/types.ts`; optional fields are `Option`. -/
structure TelemetryData : Type where
  DeviceName : String
  DeviceType : String
  TemperatureC : ℚ
  VibrationMM_S : ℚ
  RuntimeHours : ℚ
  PressureKPa : Option ℚ
  CurrentDrawA : Option ℚ
  SignalNoiseLevel : Option ℚ
  ClimateControl : Option String
  HumidityPercent : Option ℚ
  Location : Option String
  OperationalCycles : Option ℚ
  UserInteractionsPerDay : Option ℚ
  ApproxDeviceAgeYears : Option ℚ
  NumRepairs : Option ℚ
  ErrorLogsCount : Option ℚ
  SentTimestamp : Option String
deriving DecidableEq

/-- `FinalPrediction` of `src/services/types.ts`. -/
structure FinalPrediction : Type where
  label : RiskLevel
  confidence : ℚ
  device_name : Option String
  device_type : Option String
  factors : Option (List String)
deriving DecidableEq

/-- The `azure_ml` / `local_model` secondary results of `PredictionRecord`. -/
structure ModelResult : Type where
  ok : Bool
  label : Option String
  confidence : Option ℚ
  error : Option String
deriving DecidableEq

/-- `PredictionRecord` of `src/services/types.ts`.  The `timestamp` string is
represented by its `new Date(timestamp).getTime()` millisecond value. -/
structure PredictionRecord : Type where
  telemetry : TelemetryData
  final : FinalPrediction
  timestampMs : ℤ
  azure_ml : Option ModelResult
  local_model : Option ModelResult
  device_name : Option String
  device_type : Option String
  pipeline : Option String
deriving DecidableEq

/-- The ordering in which `updateDeviceData` leaves the collection: the
comparator `(a, b) => new Date(b.timestamp).getTime() - new Date(a.timestamp).getTime()`
puts `a` no later than `b` exactly when `b`'s timestamp is `≤` `a`'s. -/
def tsLe (a b : PredictionRecord) : Prop :=
  b.timestampMs ≤ a.timestampMs

instance : DecidableRel tsLe := fun a b =>
  inferInstanceAs (Decidable (b.timestampMs ≤ a.timestampMs))

instance : IsTotal PredictionRecord tsLe :=
  ⟨fun a b => le_total b.timestampMs a.timestampMs⟩

instance : IsTrans PredictionRecord tsLe :=
  ⟨fun _ _ _ hab hbc => le_trans hbc hab⟩

/-- `updateDeviceData` of `src/hooks/useSSEStream.ts`:

  const deviceName = newPrediction.telemetry.DeviceName;
  const filtered = currentData.filter(p => p.telemetry.DeviceName !== deviceName);
  const updated = [newPrediction, ...filtered].slice(0, 100); // Keep last 100 updates
  return updated.sort((a, b) => new Date(b.timestamp).getTime() - new Date(a.timestamp).getTime());
-/
def updateDeviceData (currentData : List PredictionRecord)
    (newPrediction : PredictionRecord) : List PredictionRecord :=
  let deviceName := newPrediction.telemetry.DeviceName
  let filtered := currentData.filter fun p => p.telemetry.DeviceName != deviceName
  let updated := (newPrediction :: filtered).take 100
  List.insertionSort tsLe updated

/-- A collection reachable from the empty collection by a sequence of merges:
the stream starts from `data: []` and every message folds in through
`updateDeviceData`. -/
def mergeAll (rs : List PredictionRecord) : List PredictionRecord :=
  rs.foldl updateDeviceData []

/-- The React state of `useSSEStream` (`SSEStreamState` in the source). -/
structure SSEStreamState : Type where
  data : List PredictionRecord
  isConnected : Bool
  error : Option String
  reconnectCount : ℕ
deriving DecidableEq

/-- The initial hook state:
`{ data: [], isConnected: false, error: null, reconnectCount: 0 }`. -/
def initialSSEState : SSEStreamState :=
  { data := [], isConnected := false, error := none, reconnectCount := 0 }

/-- The `eventSource.onopen` handler of `useSSEStream.connect`. -/
def onOpen (prev : SSEStreamState) : SSEStreamState :=
  { prev with isConnected := true, error := none, reconnectCount := 0 }

/-- The `eventSource.onmessage` handler of `useSSEStream.connect`.
`parsed = some p` is a payload whose `JSON.parse` yields record `p`;
`parsed = none` is a payload on which `JSON.parse` throws, taking the
`catch` branch. -/
def onMessage (prev : SSEStreamState) (parsed : Option PredictionRecord) :
    SSEStreamState :=
  match parsed with
  | some prediction => { prev with data := updateDeviceData prev.data prediction }
  | none => { prev with error := some ("Failed to parse prediction data") }

/-- The `eventSource.onerror` handler of `useSSEStream.connect`.  Returns the
new React state together with the delay (ms) of the reconnect scheduled via
`setTimeout`, or `none` when no reconnect is scheduled. -/
def onError (maxReconnects : ℕ) (prev : SSEStreamState) :
    SSEStreamState × Option ℕ :=
  let newReconnectCount := prev.reconnectCount + 1
  if newReconnectCount ≤ maxReconnects then
    let delay := min (1000 * 2 ^ (newReconnectCount - 1)) 16000
    ({ prev with
        isConnected := false,
        error := some ("Connection lost. Reconnecting in " ++
          toString (delay / 1000) ++ "s..."),
        reconnectCount := newReconnectCount },
      some delay)
  else
    ({ prev with
        isConnected := false,
        error := some ("Connection failed after maximum retry attempts"),
        reconnectCount := newReconnectCount },
      none)

/-- The state after `n` further transport errors starting from `s`
(`onerror` fired `n` times, taking only the state component). -/
def afterErrors (maxReconnects : ℕ) (s : SSEStreamState) : ℕ → SSEStreamState
  | 0 => s
  | n + 1 => (onError maxReconnects (afterErrors maxReconnects s n)).1

/-- The hook's full observable state: the React state plus its two refs —
whether `eventSourceRef.current` holds a live transport handle, and whether
`reconnectTimeoutRef.current` holds a pending retry timer. -/
structure HookState : Type where
  state : SSEStreamState
  esOpen : Bool
  timerPending : Bool
deriving DecidableEq

/-- The effect of `connect()` on the refs: a fresh `EventSource` is created
and stored in `eventSourceRef`. -/
def connectEffect (h : HookState) : HookState :=
  { h with esOpen := true }

/-- The explicit `reconnect()` action of `useSSEStream`: closes the existing
transport handle, clears the pending retry timer, resets `reconnectCount` to
zero, and re-invokes `connect()`. -/
def reconnectAction (h : HookState) : HookState :=
  connectEffect
    { state := { h.state with reconnectCount := 0 },
      esOpen := false,
      timerPending := false }

/-- The discrete events a live `EventSource` delivers to the hook. -/
inductive SSEEvent : Type
  | opened : SSEEvent
  | message : Option PredictionRecord → SSEEvent
  | errored : SSEEvent

/-- One callback dispatch of `useSSEStream.connect`: the new React state,
together with the delay of a reconnect scheduled via `setTimeout` (only the
`onerror` handler ever calls `setTimeout`; `onopen` and `onmessage` contain
no scheduling call). -/
def handleEvent (maxReconnects : ℕ) (s : SSEStreamState) :
    SSEEvent → SSEStreamState × Option ℕ
  | SSEEvent.opened => (onOpen s, none)
  | SSEEvent.message parsed => (onMessage s parsed, none)
  | SSEEvent.errored => onError maxReconnects s

/-- `getRiskPriority` of `src/utils/riskHelpers.ts`. -/
def getRiskPriority (risk : RiskLevel) : ℕ :=
  match risk with
  | RiskLevel.High => 3
  | RiskLevel.Medium => 2
  | RiskLevel.Low => 1

/-- `Math.round` on an exact rational: round half toward positive infinity. -/
def mathRound (q : ℚ) : ℤ :=
  ⌊q + 1 / 2⌋

/-- The value returned by `getRiskStats` of `src/utils/riskHelpers.ts`:
per-label counts, the total, and the rounded percentages. -/
structure RiskStats : Type where
  Low : ℕ
  Medium : ℕ
  High : ℕ
  total : ℕ
  pctLow : ℤ
  pctMedium : ℤ
  pctHigh : ℤ
deriving DecidableEq

/-- `getRiskStats` of `src/utils/riskHelpers.ts`: the `forEach` loop counts
the records carrying each label, and each percentage is
`Math.round((count / total) * 100)` when `total > 0`, else `0`. -/
def getRiskStats (predictions : List PredictionRecord) : RiskStats :=
  let total := predictions.length
  let low := (predictions.filter fun p => p.final.label = RiskLevel.Low).length
  let med := (predictions.filter fun p => p.final.label = RiskLevel.Medium).length
  let high := (predictions.filter fun p => p.final.label = RiskLevel.High).length
  { Low := low, Medium := med, High := high, total := total,
    pctLow := if 0 < total then mathRound ((low : ℚ) / (total : ℚ) * 100) else 0,
    pctMedium := if 0 < total then mathRound ((med : ℚ) / (total : ℚ) * 100) else 0,
    pctHigh := if 0 < total then mathRound ((high : ℚ) / (total : ℚ) * 100) else 0 }

/-- The private reconnection state of `SSEService` in
`src/services/sseService.ts`: `(reconnectAttempts, reconnectInterval)`,
initialised to `(0, 1000)`. -/
def sseServiceInit : ℕ × ℕ := (0, 1000)

/-- `SSEService.handleReconnection`: when fewer than `maxReconnectAttempts = 5`
attempts have been made, increments the counter, schedules a reconnect after
the current `reconnectInterval`, and doubles the interval capped at 30000 ms;
otherwise gives up.  Returns the new `(attempts, interval)` state and the
scheduled delay, if any. -/
def handleReconnection (s : ℕ × ℕ) : (ℕ × ℕ) × Option ℕ :=
  if s.1 < 5 then
    ((s.1 + 1, min (s.2 * 2) 30000), some s.2)
  else
    (s, none)

/-- The `SSEService` reconnection state after `n` transport errors. -/
def sseServiceState : ℕ → ℕ × ℕ
  | 0 => sseServiceInit
  | n + 1 => (handleReconnection (sseServiceState n)).1

/-- A concrete `PredictionRecord` with the given device name, record
timestamp (ms) and risk label; all optional fields absent. -/
def mkRecord (name : String) (ts : ℤ) (label : RiskLevel) : PredictionRecord :=
  { telemetry :=
      { DeviceName := name,
        DeviceType := ("monitor"),
        TemperatureC := 0,
        VibrationMM_S := 0,
        RuntimeHours := 0,
        PressureKPa := none,
        CurrentDrawA := none,
        SignalNoiseLevel := none,
        ClimateControl := none,
        HumidityPercent := none,
        Location := none,
        OperationalCycles := none,
        UserInteractionsPerDay := none,
        ApproxDeviceAgeYears := none,
        NumRepairs := none,
        ErrorLogsCount := none,
        SentTimestamp := none },
    final :=
      { label := label,
        confidence := 1,
        device_name := none,
        device_type := none,
        factors := none },
    timestampMs := ts,
    azure_ml := none,
    local_model := none,
    device_name := none,
    device_type := none,
    pipeline := none }

/-- A collection at capacity: 100 records on distinct devices, timestamps
100 down to 1, already sorted descending. -/
def fullCollection : List PredictionRecord :=
  (List.range 100).map fun i =>
    mkRecord (("device-") ++ toString i) (100 - (i : ℤ)) RiskLevel.Low

/-- An incoming record on a fresh device whose timestamp (0) is older than
every resident record of `fullCollection`. -/
def staleRecord : PredictionRecord :=
  mkRecord ("device-new") 0 RiskLevel.Low

/-- The entry of `fullCollection` with the oldest timestamp (1). -/
def oldestResident : PredictionRecord :=
  mkRecord ("device-99") 1 RiskLevel.Low

/-- The merge the specification describes, in the spec's own operation
order: remove the incoming device's entry, insert the incoming record,
sort the combined entries by record timestamp descending, and only then
truncate to the capacity of 100.  (The source's `updateDeviceData`
truncates before sorting; this definition exists to compare the two.) -/
def specMergeSortFirst (currentData : List PredictionRecord)
    (newPrediction : PredictionRecord) : List PredictionRecord :=
  (List.insertionSort tsLe
    (newPrediction ::
      currentData.filter fun p =>
        p.telemetry.DeviceName != newPrediction.telemetry.DeviceName)).take 100

/-- The statistics scenario of the spec: 3 Low records, 1 Medium record,
0 High records. -/
def statsScenario : List PredictionRecord :=
  [mkRecord ("a") 1 RiskLevel.Low,
   mkRecord ("b") 2 RiskLevel.Low,
   mkRecord ("c") 3 RiskLevel.Low,
   mkRecord ("d") 4 RiskLevel.Medium]

/-- A small sorted collection used to instantiate theorems with a
sortedness hypothesis. -/
def smallSortedCollection : List PredictionRecord :=
  [mkRecord ("a") 5 RiskLevel.Low, mkRecord ("b") 3 RiskLevel.High]

/-- A fresh record for the small collection. -/
def smallIncoming : PredictionRecord :=
  mkRecord ("c") 4 RiskLevel.Medium

/-- A hook state that has exceeded the default maximum of 5 reconnection
attempts (the terminal state of claim C6). -/
def failedHookState : HookState :=
  { state :=
      { data := [mkRecord ("a") 5 RiskLevel.Low],
        isConnected := false,
        error := some ("Connection failed after maximum retry attempts"),
        reconnectCount := 6 },
    esOpen := true,
    timerPending := false }

/-! ## Structure of one merge step

`updateDeviceData C R` is the stable sort of `R :: (filtered C).take 99`,
equivalently `R` order-inserted into the sorted, truncated survivors. -/

lemma updateDeviceData_eq_orderedInsert (C : List PredictionRecord)
    (R : PredictionRecord) :
    updateDeviceData C R =
      (List.insertionSort tsLe
        ((C.filter fun p =>
          p.telemetry.DeviceName != R.telemetry.DeviceName).take 99)).orderedInsert
        tsLe R :=
  rfl

lemma mem_updateDeviceData {C : List PredictionRecord} {R p : PredictionRecord} :
    p ∈ updateDeviceData C R ↔
      p = R ∨
        p ∈ (C.filter fun q =>
          q.telemetry.DeviceName != R.telemetry.DeviceName).take 99 := by
  rw [updateDeviceData_eq_orderedInsert, List.mem_orderedInsert,
    List.mem_insertionSort]

lemma updateDeviceData_perm (C : List PredictionRecord) (R : PredictionRecord) :
    List.Perm (updateDeviceData C R)
      (R :: (C.filter fun q =>
        q.telemetry.DeviceName != R.telemetry.DeviceName).take 99) := by
  rw [updateDeviceData_eq_orderedInsert]
  exact (List.perm_orderedInsert tsLe R _).trans
    ((List.perm_insertionSort tsLe _).cons R)

lemma updateDeviceData_length_le (C : List PredictionRecord)
    (R : PredictionRecord) : (updateDeviceData C R).length ≤ 100 := by
  have h := (updateDeviceData_perm C R).length_eq
  rw [h, List.length_cons, List.length_take]
  have := Nat.min_le_left 99
    (C.filter fun q =>
      q.telemetry.DeviceName != R.telemetry.DeviceName).length
  omega

lemma updateDeviceData_sorted (C : List PredictionRecord)
    (R : PredictionRecord) : (updateDeviceData C R).Sorted tsLe :=
  List.sorted_insertionSort tsLe _

lemma mem_filtered_ne {C : List PredictionRecord} {R q : PredictionRecord}
    (hq : q ∈ (C.filter fun q =>
      q.telemetry.DeviceName != R.telemetry.DeviceName).take 99) :
    q ∈ C ∧ q.telemetry.DeviceName ≠ R.telemetry.DeviceName := by
  have hmem := List.take_subset 99 _ hq
  rw [List.mem_filter] at hmem
  exact ⟨hmem.1, by simpa using hmem.2⟩

lemma updateDeviceData_names_nodup {C : List PredictionRecord}
    (R : PredictionRecord)
    (h : (C.map fun p => p.telemetry.DeviceName).Nodup) :
    ((updateDeviceData C R).map fun p => p.telemetry.DeviceName).Nodup := by
  have hperm := (updateDeviceData_perm C R).map
    fun p => p.telemetry.DeviceName
  rw [hperm.nodup_iff]
  rw [List.map_cons, List.nodup_cons]
  constructor
  · intro hmem
    rcases List.mem_map.mp hmem with ⟨q, hq, hname⟩
    exact absurd hname (mem_filtered_ne hq).2
  · have hsub : List.Sublist
        ((C.filter fun q =>
          q.telemetry.DeviceName != R.telemetry.DeviceName).take 99) C :=
      (List.take_sublist _ _).trans (List.filter_sublist _)
    exact h.sublist (hsub.map _)

lemma foldl_updateDeviceData_length (rs : List PredictionRecord) :
    ∀ acc : List PredictionRecord, acc.length ≤ 100 →
      (rs.foldl updateDeviceData acc).length ≤ 100 := by
  induction rs with
  | nil => intro acc h; exact h
  | cons r rs ih =>
    intro acc _
    rw [List.foldl_cons]
    exact ih _ (updateDeviceData_length_le acc r)

lemma foldl_updateDeviceData_sorted (rs : List PredictionRecord) :
    ∀ acc : List PredictionRecord, acc.Sorted tsLe →
      (rs.foldl updateDeviceData acc).Sorted tsLe := by
  induction rs with
  | nil => intro acc h; exact h
  | cons r rs ih =>
    intro acc _
    rw [List.foldl_cons]
    exact ih _ (updateDeviceData_sorted acc r)

lemma foldl_updateDeviceData_nodup (rs : List PredictionRecord) :
    ∀ acc : List PredictionRecord,
      (acc.map fun p => p.telemetry.DeviceName).Nodup →
      ((rs.foldl updateDeviceData acc).map fun p =>
        p.telemetry.DeviceName).Nodup := by
  induction rs with
  | nil => intro acc h; exact h
  | cons r rs ih =>
    intro acc h
    rw [List.foldl_cons]
    exact ih _ (updateDeviceData_names_nodup r h)

/-- **C4.** Every collection reachable from the empty collection by any
sequence of merge operations has length at most the configured capacity,
100. -/
theorem merge_capacity_bound (rs : List PredictionRecord) :
    (mergeAll rs).length ≤ 100 :=
  foldl_updateDeviceData_length rs [] (by simp)

/-- **C2.** Every collection reachable from the empty collection by any
sequence of merge operations is sorted by record timestamp in descending
order. -/
theorem merge_ordering (rs : List PredictionRecord) :
    (mergeAll rs).Pairwise fun a b => b.timestampMs ≤ a.timestampMs :=
  foldl_updateDeviceData_sorted rs [] (by simp [List.Sorted])

/-- **C3.** In every collection reachable from the empty collection by any
sequence of merge operations, no two entries share a device name; moreover
after merging a record `R`, `R` itself is present and is the only entry
carrying its device name. -/
theorem merge_unique_device (rs : List PredictionRecord) :
    ((mergeAll rs).map fun p => p.telemetry.DeviceName).Nodup ∧
      ∀ C R, R ∈ updateDeviceData C R ∧
        ∀ p ∈ updateDeviceData C R,
          p.telemetry.DeviceName = R.telemetry.DeviceName → p = R := by
  refine ⟨foldl_updateDeviceData_nodup rs [] (by simp), fun C R => ⟨?_, ?_⟩⟩
  · exact mem_updateDeviceData.mpr (Or.inl rfl)
  · intro p hp hname
    rcases mem_updateDeviceData.mp hp with h | h
    · exact h
    · exact absurd hname (mem_filtered_ne h).2

/-- Witness for C3 at a concrete merge sequence and a concrete single
merge. -/
theorem merge_unique_device_witness :
    ((mergeAll statsScenario).map fun p => p.telemetry.DeviceName).Nodup ∧
      ∀ C R, R ∈ updateDeviceData C R ∧
        ∀ p ∈ updateDeviceData C R,
          p.telemetry.DeviceName = R.telemetry.DeviceName → p = R :=
  merge_unique_device statsScenario

/-- **C10.** Every entry of `merge(C, R)` is identically either `R` or an
entry of `C`; and when the filtered survivors together with `R` fit within
the capacity, no entry of `C` on a different device disappears. -/
theorem merge_frame_effect (C : List PredictionRecord) (R : PredictionRecord) :
    (∀ p ∈ updateDeviceData C R, p = R ∨ p ∈ C) ∧
      ((C.filter fun q =>
          q.telemetry.DeviceName != R.telemetry.DeviceName).length + 1 ≤ 100 →
        ∀ p ∈ C, p.telemetry.DeviceName ≠ R.telemetry.DeviceName →
          p ∈ updateDeviceData C R) := by
  constructor
  · intro p hp
    rcases mem_updateDeviceData.mp hp with h | h
    · exact Or.inl h
    · exact Or.inr (mem_filtered_ne h).1
  · intro hlen p hp hname
    refine mem_updateDeviceData.mpr (Or.inr ?_)
    have hmem : p ∈ C.filter fun q =>
        q.telemetry.DeviceName != R.telemetry.DeviceName :=
      List.mem_filter.mpr ⟨hp, by simpa using hname⟩
    rwa [List.take_of_length_le (by omega)]

lemma filter_orderedInsert_of_none {p : PredictionRecord → Bool}
    {S : List PredictionRecord} {R : PredictionRecord} (hR : p R = false)
    (hS : ∀ q ∈ S, p q = true) :
    (S.orderedInsert tsLe R).filter p = S := by
  induction S with
  | nil => simp [List.orderedInsert, hR]
  | cons b S ih =>
    rw [List.orderedInsert]
    by_cases h : tsLe R b
    · rw [if_pos h, List.filter_cons, hR]
      exact List.filter_eq_self.mpr hS
    · rw [if_neg h, List.filter_cons, hS b (List.mem_cons_self b S)]
      simp only [ite_true]
      rw [ih fun q hq => hS q (List.mem_cons_of_mem b hq)]

/-- **C7.** Merging the same record twice in a row is the same as merging
it once: `merge(C, R) = merge(merge(C, R), R)` for every collection `C`
and record `R` — in particular for an `R` already resident as its
device's most-recent entry. -/
theorem merge_idempotent (C : List PredictionRecord) (R : PredictionRecord) :
    updateDeviceData (updateDeviceData C R) R = updateDeviceData C R := by
  have hS : ∀ q ∈ List.insertionSort tsLe
      ((C.filter fun q =>
        q.telemetry.DeviceName != R.telemetry.DeviceName).take 99),
      (fun q => q.telemetry.DeviceName != R.telemetry.DeviceName) q = true := by
    intro q hq
    rw [List.mem_insertionSort] at hq
    simpa using (mem_filtered_ne hq).2
  have hfilter : (updateDeviceData C R).filter
      (fun q => q.telemetry.DeviceName != R.telemetry.DeviceName) =
      List.insertionSort tsLe
        ((C.filter fun q =>
          q.telemetry.DeviceName != R.telemetry.DeviceName).take 99) := by
    rw [updateDeviceData_eq_orderedInsert]
    exact filter_orderedInsert_of_none (by simp) hS
  have hlen : ((updateDeviceData C R).filter
      (fun q => q.telemetry.DeviceName != R.telemetry.DeviceName)).length ≤ 99 := by
    rw [hfilter, List.length_insertionSort, List.length_take]
    exact Nat.min_le_left _ _
  show List.insertionSort tsLe
      ((R :: (updateDeviceData C R).filter fun p =>
        p.telemetry.DeviceName != R.telemetry.DeviceName).take 100) =
    updateDeviceData C R
  rw [List.take_of_length_le (by simpa using hlen), hfilter, List.insertionSort,
    (List.sorted_insertionSort tsLe _).insertionSort_eq,
    updateDeviceData_eq_orderedInsert]

set_option maxHeartbeats 1000000 in
/-- **C1 (counterexample).** With `fullCollection` at capacity (100 entries,
timestamps 100..1, distinct devices) and the incoming `staleRecord`
(fresh device, timestamp 0, older than every resident entry), the code
evicts `oldestResident` (timestamp 1) while retaining the strictly older
`staleRecord`: the evicted entry is not among the oldest of `C ∪ {R}`, and
the result differs from the sort-first-then-truncate merge the claim
describes. -/
theorem merge_sort_order_counterexample :
    fullCollection.length = 100 ∧
      staleRecord ∈ updateDeviceData fullCollection staleRecord ∧
      oldestResident ∈ fullCollection ∧
      oldestResident ∉ updateDeviceData fullCollection staleRecord ∧
      staleRecord.timestampMs < oldestResident.timestampMs ∧
      updateDeviceData fullCollection staleRecord ≠
        specMergeSortFirst fullCollection staleRecord := by
  decide

/-- **C1 (amended).** `merge(C, R)` truncates the combined list
`R :: (C without R's device)` to the capacity of 100 and then sorts by
record timestamp descending; consequently, for a collection `C` already
sorted descending, the just-inserted `R` is never evicted, and every
evicted entry has a timestamp no newer than every retained entry of
`C` without `R`'s device (`R` itself may be older than an evicted
entry). -/
theorem merge_eviction_order (C : List PredictionRecord) (R : PredictionRecord)
    (hC : C.Pairwise fun a b => b.timestampMs ≤ a.timestampMs) :
    R ∈ updateDeviceData C R ∧
      ∀ p ∈ C, p.telemetry.DeviceName ≠ R.telemetry.DeviceName →
        p ∉ updateDeviceData C R →
        ∀ q ∈ updateDeviceData C R,
          q.telemetry.DeviceName ≠ R.telemetry.DeviceName →
            p.timestampMs ≤ q.timestampMs := by
  refine ⟨mem_updateDeviceData.mpr (Or.inl rfl), ?_⟩
  intro p hp hpname hpnot q hq hqname
  have hFsorted : (C.filter fun q =>
      q.telemetry.DeviceName != R.telemetry.DeviceName).Sorted tsLe :=
    List.Pairwise.filter _ hC
  have hpF : p ∈ C.filter fun q =>
      q.telemetry.DeviceName != R.telemetry.DeviceName :=
    List.mem_filter.mpr ⟨hp, by simpa using hpname⟩
  have hpTake : p ∉ (C.filter fun q =>
      q.telemetry.DeviceName != R.telemetry.DeviceName).take 99 :=
    fun h => hpnot (mem_updateDeviceData.mpr (Or.inr h))
  have hpDrop : p ∈ (C.filter fun q =>
      q.telemetry.DeviceName != R.telemetry.DeviceName).drop 99 := by
    have hsplit := List.take_append_drop 99 (C.filter fun q =>
      q.telemetry.DeviceName != R.telemetry.DeviceName)
    have hmem : p ∈ (C.filter fun q =>
        q.telemetry.DeviceName != R.telemetry.DeviceName).take 99 ++
        (C.filter fun q =>
          q.telemetry.DeviceName != R.telemetry.DeviceName).drop 99 := by
      rw [hsplit]; exact hpF
    rcases List.mem_append.mp hmem with h | h
    · exact absurd h hpTake
    · exact h
  have hqTake : q ∈ (C.filter fun q =>
      q.telemetry.DeviceName != R.telemetry.DeviceName).take 99 := by
    rcases mem_updateDeviceData.mp hq with h | h
    · subst h; exact absurd rfl hqname
    · exact h
  exact hFsorted.rel_of_mem_take_of_mem_drop hqTake hpDrop

/-- Witness for the amended C1 at a concrete sorted collection. -/
theorem merge_eviction_order_witness :
    (smallSortedCollection.Pairwise fun a b =>
      b.timestampMs ≤ a.timestampMs) ∧
      (smallIncoming ∈
          updateDeviceData smallSortedCollection smallIncoming ∧
        ∀ p ∈ smallSortedCollection,
          p.telemetry.DeviceName ≠ smallIncoming.telemetry.DeviceName →
          p ∉ updateDeviceData smallSortedCollection smallIncoming →
          ∀ q ∈ updateDeviceData smallSortedCollection smallIncoming,
            q.telemetry.DeviceName ≠ smallIncoming.telemetry.DeviceName →
              p.timestampMs ≤ q.timestampMs) :=
  ⟨by decide, merge_eviction_order smallSortedCollection smallIncoming (by decide)⟩

/-- Witness for C10 at a concrete collection and record. -/
theorem merge_frame_effect_witness :
    (∀ p ∈ updateDeviceData smallSortedCollection smallIncoming,
        p = smallIncoming ∨ p ∈ smallSortedCollection) ∧
      ((smallSortedCollection.filter fun q =>
          q.telemetry.DeviceName !=
            smallIncoming.telemetry.DeviceName).length + 1 ≤ 100 →
        ∀ p ∈ smallSortedCollection,
          p.telemetry.DeviceName ≠ smallIncoming.telemetry.DeviceName →
            p ∈ updateDeviceData smallSortedCollection smallIncoming) :=
  merge_frame_effect smallSortedCollection smallIncoming

/-! ## Connection manager: backoff, terminal state, parse failures -/

lemma onError_reconnectCount (maxReconnects : ℕ) (s : SSEStreamState) :
    (onError maxReconnects s).1.reconnectCount = s.reconnectCount + 1 := by
  simp only [onError]
  split <;> rfl

lemma afterErrors_reconnectCount (maxReconnects : ℕ) (s : SSEStreamState)
    (n : ℕ) :
    (afterErrors maxReconnects s n).reconnectCount = s.reconnectCount + n := by
  induction n with
  | zero => rfl
  | succ n ih =>
    show (onError maxReconnects (afterErrors maxReconnects s n)).1.reconnectCount = _
    rw [onError_reconnectCount, ih]
    omega

/-- **C5.** Every reconnect the `onerror` handler schedules for attempt
`n = reconnectCount + 1` is delayed by `min(1000 * 2^(n-1), 16000)` ms;
starting from the initial state with a permissive attempt limit, attempts
1..6 are delayed 1000, 2000, 4000, 8000, 16000, 16000 ms, and the
`SSEService` variant schedules its five attempts with the same delays. -/
theorem backoff_schedule (maxReconnects : ℕ) (s : SSEStreamState) (d : ℕ)
    (h : (onError maxReconnects s).2 = some d) :
    d = min (1000 * 2 ^ (s.reconnectCount + 1 - 1)) 16000 ∧
      (onError maxReconnects s).1.reconnectCount = s.reconnectCount + 1 ∧
      (List.range 6).map (fun k =>
          (onError 6 (afterErrors 6 initialSSEState k)).2) =
        [some 1000, some 2000, some 4000, some 8000, some 16000,
          some 16000] ∧
      (List.range 5).map (fun k =>
          (handleReconnection (sseServiceState k)).2) =
        [some 1000, some 2000, some 4000, some 8000, some 16000] := by
  refine ⟨?_, onError_reconnectCount maxReconnects s, by decide, by decide⟩
  simp only [onError] at h
  split at h
  · simpa using h.symm
  · simp at h

/-- Witness for C5: from the initial state with the default limit of 5,
the first error schedules attempt 1 after 1000 ms. -/
theorem backoff_schedule_witness :
    (onError 5 initialSSEState).2 = some 1000 ∧
      (1000 = min (1000 * 2 ^ (initialSSEState.reconnectCount + 1 - 1))
          16000 ∧
        (onError 5 initialSSEState).1.reconnectCount =
          initialSSEState.reconnectCount + 1 ∧
        (List.range 6).map (fun k =>
            (onError 6 (afterErrors 6 initialSSEState k)).2) =
          [some 1000, some 2000, some 4000, some 8000, some 16000,
            some 16000] ∧
        (List.range 5).map (fun k =>
            (handleReconnection (sseServiceState k)).2) =
          [some 1000, some 2000, some 4000, some 8000, some 16000]) :=
  ⟨by decide, backoff_schedule 5 initialSSEState 1000 (by decide)⟩

/-- **C6.** Once the attempt count exceeds the configured maximum, no
later transport error ever schedules a reconnect; the explicit
`reconnect()` action resets the attempt counter to zero, clears the
pending retry timer, replaces the transport handle via `connect()`, keeps
the collection, and the next error after it schedules attempt 1 (after
1000 ms whenever at least one attempt is allowed). -/
theorem terminal_state (maxReconnects : ℕ) (h : HookState)
    (hterm : maxReconnects < h.state.reconnectCount) :
    (∀ n, (onError maxReconnects
        (afterErrors maxReconnects h.state n)).2 = none) ∧
      (reconnectAction h).state.reconnectCount = 0 ∧
      (reconnectAction h).timerPending = false ∧
      (reconnectAction h).esOpen = true ∧
      (reconnectAction h).state.data = h.state.data ∧
      (onError maxReconnects
        (reconnectAction h).state).1.reconnectCount = 1 ∧
      (1 ≤ maxReconnects →
        (onError maxReconnects (reconnectAction h).state).2 = some 1000) := by
  refine ⟨?_, rfl, rfl, rfl, rfl, ?_, ?_⟩
  · intro n
    have hc := afterErrors_reconnectCount maxReconnects h.state n
    simp only [onError]
    rw [if_neg (by omega)]
  · rw [onError_reconnectCount]
    simp [reconnectAction, connectEffect]
  · intro hm
    simp only [onError]
    rw [if_pos (by simpa [reconnectAction, connectEffect] using hm)]
    simp [reconnectAction, connectEffect]

/-- Witness for C6 at the concrete terminal hook state (count 6 > max 5). -/
theorem terminal_state_witness :
    5 < failedHookState.state.reconnectCount ∧
      ((∀ n, (onError 5 (afterErrors 5 failedHookState.state n)).2 = none) ∧
        (reconnectAction failedHookState).state.reconnectCount = 0 ∧
        (reconnectAction failedHookState).timerPending = false ∧
        (reconnectAction failedHookState).esOpen = true ∧
        (reconnectAction failedHookState).state.data =
          failedHookState.state.data ∧
        (onError 5
          (reconnectAction failedHookState).state).1.reconnectCount = 1 ∧
        (1 ≤ 5 →
          (onError 5 (reconnectAction failedHookState).state).2 =
            some 1000)) :=
  ⟨by decide, terminal_state 5 failedHookState (by decide)⟩

/-- **C8.** A stream message whose payload fails to parse leaves the
device collection, the connected flag and the attempt counter unchanged,
only sets the error indication, and schedules no reconnection attempt. -/
theorem parse_failure_frame (maxReconnects : ℕ) (s : SSEStreamState) :
    (onMessage s none).data = s.data ∧
      (onMessage s none).isConnected = s.isConnected ∧
      (onMessage s none).reconnectCount = s.reconnectCount ∧
      (onMessage s none).error = some ("Failed to parse prediction data") ∧
      (handleEvent maxReconnects s (SSEEvent.message none)).2 = none :=
  ⟨rfl, rfl, rfl, rfl, rfl⟩

/-! ## Statistics adapter -/

lemma mathRound_nearest (q : ℚ) : |((mathRound q : ℤ) : ℚ) - q| ≤ 1 / 2 := by
  rw [abs_le, mathRound]
  constructor
  · have h := Int.lt_floor_add_one (q + 1 / 2)
    linarith
  · have h := Int.floor_le (q + 1 / 2)
    linarith

lemma label_count_partition (ps : List PredictionRecord) :
    (ps.filter fun p => p.final.label = RiskLevel.Low).length +
      (ps.filter fun p => p.final.label = RiskLevel.Medium).length +
      (ps.filter fun p => p.final.label = RiskLevel.High).length =
      ps.length := by
  induction ps with
  | nil => rfl
  | cons p ps ih =>
    cases hl : p.final.label <;>
      simp [List.filter_cons, hl] <;> omega

lemma getRiskStats_scenario :
    getRiskStats statsScenario =
      { Low := 3, Medium := 1, High := 0, total := 4,
        pctLow := 75, pctMedium := 25, pctHigh := 0 } := by
  have hLow : (statsScenario.filter fun p =>
      p.final.label = RiskLevel.Low).length = 3 := by decide
  have hMed : (statsScenario.filter fun p =>
      p.final.label = RiskLevel.Medium).length = 1 := by decide
  have hHigh : (statsScenario.filter fun p =>
      p.final.label = RiskLevel.High).length = 0 := by decide
  have hTot : statsScenario.length = 4 := by decide
  simp only [getRiskStats, RiskStats.mk.injEq, hLow, hMed, hHigh, hTot]
  norm_num [mathRound]

/-- **C9.** The statistics adapter returns the count of each risk label,
counts that partition the total; each percentage is within 1/2 of the
exact ratio `count/total * 100` (a nearest-integer rounding) when the
total is positive and is 0 when the collection is empty; and the 3-Low /
1-Medium / 0-High scenario yields percentages 75, 25, 0. -/
theorem risk_statistics (ps : List PredictionRecord) :
    (getRiskStats ps).total = ps.length ∧
      (getRiskStats ps).Low + (getRiskStats ps).Medium +
        (getRiskStats ps).High = (getRiskStats ps).total ∧
      (getRiskStats ps).Low =
        ps.countP (fun p => decide (p.final.label = RiskLevel.Low)) ∧
      (getRiskStats ps).Medium =
        ps.countP (fun p => decide (p.final.label = RiskLevel.Medium)) ∧
      (getRiskStats ps).High =
        ps.countP (fun p => decide (p.final.label = RiskLevel.High)) ∧
      ((getRiskStats ps).total = 0 →
        (getRiskStats ps).pctLow = 0 ∧ (getRiskStats ps).pctMedium = 0 ∧
          (getRiskStats ps).pctHigh = 0) ∧
      (0 < (getRiskStats ps).total →
        |((getRiskStats ps).pctLow : ℚ) -
            ((getRiskStats ps).Low : ℚ) / ((getRiskStats ps).total : ℚ) *
              100| ≤ 1 / 2 ∧
          |((getRiskStats ps).pctMedium : ℚ) -
            ((getRiskStats ps).Medium : ℚ) / ((getRiskStats ps).total : ℚ) *
              100| ≤ 1 / 2 ∧
          |((getRiskStats ps).pctHigh : ℚ) -
            ((getRiskStats ps).High : ℚ) / ((getRiskStats ps).total : ℚ) *
              100| ≤ 1 / 2) ∧
      getRiskStats statsScenario =
        { Low := 3, Medium := 1, High := 0, total := 4,
          pctLow := 75, pctMedium := 25, pctHigh := 0 } := by
  refine ⟨rfl, label_count_partition ps,
    (List.countP_eq_length_filter _ ps).symm,
    (List.countP_eq_length_filter _ ps).symm,
    (List.countP_eq_length_filter _ ps).symm, ?_, ?_,
    getRiskStats_scenario⟩
  · intro h
    have h' : ¬ 0 < ps.length := by
      simp only [getRiskStats] at h
      omega
    refine ⟨?_, ?_, ?_⟩ <;> simp [getRiskStats, h']
  · intro h
    have h' : 0 < ps.length := by
      simpa only [getRiskStats] using h
    refine ⟨?_, ?_, ?_⟩ <;>
      · simp only [getRiskStats, if_pos h']
        exact mathRound_nearest _

/-- Witness for C9 at the concrete 3-Low / 1-Medium scenario. -/
theorem risk_statistics_witness :
    (getRiskStats statsScenario).total = statsScenario.length ∧
      (getRiskStats statsScenario).Low + (getRiskStats statsScenario).Medium +
        (getRiskStats statsScenario).High =
        (getRiskStats statsScenario).total ∧
      (getRiskStats statsScenario).Low =
        statsScenario.countP
          (fun p => decide (p.final.label = RiskLevel.Low)) ∧
      (getRiskStats statsScenario).Medium =
        statsScenario.countP
          (fun p => decide (p.final.label = RiskLevel.Medium)) ∧
      (getRiskStats statsScenario).High =
        statsScenario.countP
          (fun p => decide (p.final.label = RiskLevel.High)) ∧
      ((getRiskStats statsScenario).total = 0 →
        (getRiskStats statsScenario).pctLow = 0 ∧
          (getRiskStats statsScenario).pctMedium = 0 ∧
          (getRiskStats statsScenario).pctHigh = 0) ∧
      (0 < (getRiskStats statsScenario).total →
        |((getRiskStats statsScenario).pctLow : ℚ) -
            ((getRiskStats statsScenario).Low : ℚ) /
              ((getRiskStats statsScenario).total : ℚ) * 100| ≤ 1 / 2 ∧
          |((getRiskStats statsScenario).pctMedium : ℚ) -
            ((getRiskStats statsScenario).Medium : ℚ) /
              ((getRiskStats statsScenario).total : ℚ) * 100| ≤ 1 / 2 ∧
          |((getRiskStats statsScenario).pctHigh : ℚ) -
            ((getRiskStats statsScenario).High : ℚ) /
              ((getRiskStats statsScenario).total : ℚ) * 100| ≤ 1 / 2) ∧
      getRiskStats statsScenario =
        { Low := 3, Medium := 1, High := 0, total := 4,
          pctLow := 75, pctMedium := 25, pctHigh := 0 } :=
  risk_statistics statsScenario
